import Mathlib

/-! The device-info probe of `pa_v14/pa_mac/patest_devinfo.c`.

The program opens a sound input device, queries eight device-info selectors,
writes `siContinuous` and `siSampleRate` twice each (each write followed by a
re-query), closes the device and reports.  The four Sound Manager entry points
(`SPBOpenDevice`, `SPBGetDeviceInfo`, `SPBSetDeviceInfo`, `SPBCloseDevice`) are
external; they are taken as a parameter, a `Backend` over an arbitrary state.

The embedding is explicit state passing: a `Frame` holds the locals of
`TestSettingDeviceInfo`, the backend state, the text written to stdout and a
log of the backend calls made so far.  Each statement of the C function is one
`Frame → Frame` step, applied in source order.

C types: `OSErr` and `short` are 16-bit, `long` and `Fixed` 32-bit signed
integers; they are carried as `Int`.  `%x` prints its (promoted) argument as an
unsigned 32-bit number, hence the reduction modulo `2 ^ 32` in `fmtHex`.
-/

namespace PatestDevinfo

/-! ## Data model -/

/-- The device-info selectors the program uses.  In `SoundInput.h` they are
distinct four-character `OSType` constants; only their identity and their
spelling (the macro stringifies them with `#selector`) matter here. -/
inductive Selector
  | siContinuous
  | siAsync
  | siNumberChannels
  | siSampleSize
  | siSampleRate
  | siChannelAvailable
  | siActiveChannels
  | siDeviceBufferInfo
  deriving DecidableEq, Repr

/-- The text `#selector` expands to. -/
def Selector.name : Selector → String
  | .siContinuous => "siContinuous"
  | .siAsync => "siAsync"
  | .siNumberChannels => "siNumberChannels"
  | .siSampleSize => "siSampleSize"
  | .siSampleRate => "siSampleRate"
  | .siChannelAvailable => "siChannelAvailable"
  | .siActiveChannels => "siActiveChannels"
  | .siDeviceBufferInfo => "siDeviceBufferInfo"

/-- Modelled from the spec: the permission constant of `SoundInput.h` (not part
of the repository) that `SPBOpenDevice` is given; the spec says the device is
opened "with write permission".  The header's value is 1. -/
def siWritePermission : Int := 1

/-- Compile-time switch of the source, line 49: `#define USE_POINTER (1)`. -/
def USE_POINTER : Nat := 1

/-- The locals of `TestSettingDeviceInfo` whose address is handed to the
backend: `long tempL; short tempS; Fixed tempF;`. -/
inductive Var
  | tempL
  | tempS
  | tempF
  deriving DecidableEq, Repr

/-- The last argument of `SPBSetDeviceInfo` / `SPBGetDeviceInfo` as the program
writes it: `(Ptr) &var`, or a value cast to a pointer, `(Ptr) 1`. -/
inductive Ptr
  | addr (var : Var)
  | direct (value : Int)
  deriving DecidableEq, Repr

/-- What `SPBSetDeviceInfo` receives: a reference to a local together with the
value that local holds at the call, or a value embedded in the pointer. -/
inductive InfoData
  | ref (var : Var) (value : Int)
  | direct (value : Int)
  deriving DecidableEq, Repr

/-- The value an `InfoData` carries. -/
def InfoData.value : InfoData → Int
  | .ref _ v => v
  | .direct v => v

/-- Whether the value is passed through a pointer to it. -/
def InfoData.byReference : InfoData → Bool
  | .ref _ _ => true
  | .direct _ => false

/-- Result of `SPBOpenDevice`: the status and the content of `*refNum` after
the call. -/
structure OpenResult (σ : Type) where
  err : Int
  refNum : Int
  dev : σ

/-- Result of `SPBGetDeviceInfo`: the status and the content of the variable
`infoData` points to after the call. -/
structure GetResult (σ : Type) where
  err : Int
  value : Int
  dev : σ

/-- Result of `SPBSetDeviceInfo` and of `SPBCloseDevice`: the status. -/
structure StatusResult (σ : Type) where
  err : Int
  dev : σ

/-- The external device-info subsystem, over its own state `σ`.
* `SPBOpenDevice dev deviceName permission cur`: `cur` is the content of
  `*refNum` before the call (the program initialises it to 0);
* `SPBGetDeviceInfo dev refNum infoType cur`: `cur` is the content of the
  variable behind `infoData` before the call;
* `SPBSetDeviceInfo dev refNum infoType infoData`;
* `SPBCloseDevice dev refNum`. -/
structure Backend (σ : Type) where
  SPBOpenDevice : σ → List Nat → Int → Int → OpenResult σ
  SPBGetDeviceInfo : σ → Int → Selector → Int → GetResult σ
  SPBSetDeviceInfo : σ → Int → Selector → InfoData → StatusResult σ
  SPBCloseDevice : σ → Int → StatusResult σ

/-- One backend call as the program issues it, results left out. -/
inductive Call
  | SPBOpenDevice (deviceName : List Nat) (permission : Int)
  | SPBGetDeviceInfo (refNum : Int) (infoType : Selector) (infoData : Ptr)
  | SPBSetDeviceInfo (refNum : Int) (infoType : Selector) (infoData : InfoData)
  | SPBCloseDevice (refNum : Int)
  deriving DecidableEq, Repr

/-- One backend call together with what it returned.  For `got`, `before` and
`after` are the content of the variable behind the pointer before and after
the call. -/
inductive Event
  | opened (deviceName : List Nat) (permission : Int) (err : Int) (refNum : Int)
  | got (refNum : Int) (infoType : Selector) (var : Var) (before : Int) (err : Int)
      (after : Int)
  | setTo (refNum : Int) (infoType : Selector) (infoData : InfoData) (err : Int)
  | closed (refNum : Int)
  deriving DecidableEq, Repr

/-- The call of an event. -/
def Event.call : Event → Call
  | .opened n p _ _ => .SPBOpenDevice n p
  | .got h sel var _ _ _ => .SPBGetDeviceInfo h sel (.addr var)
  | .setTo h sel d _ => .SPBSetDeviceInfo h sel d
  | .closed h => .SPBCloseDevice h

/-- The call is an `SPBOpenDevice`. -/
def Call.isOpen : Call → Bool
  | .SPBOpenDevice _ _ => true
  | _ => false

/-- The call is an `SPBGetDeviceInfo`. -/
def Call.isGet : Call → Bool
  | .SPBGetDeviceInfo _ _ _ => true
  | _ => false

/-- The call is an `SPBGetDeviceInfo` for selector `sel`. -/
def Call.isGetOf (sel : Selector) : Call → Bool
  | .SPBGetDeviceInfo _ s _ => decide (s = sel)
  | _ => false

/-- The call is an `SPBSetDeviceInfo`. -/
def Call.isSet : Call → Bool
  | .SPBSetDeviceInfo _ _ _ => true
  | _ => false

/-- The call is an `SPBSetDeviceInfo` for selector `sel`. -/
def Call.isSetOf (sel : Selector) : Call → Bool
  | .SPBSetDeviceInfo _ s _ => decide (s = sel)
  | _ => false

/-- The call is an `SPBCloseDevice`. -/
def Call.isClose : Call → Bool
  | .SPBCloseDevice _ => true
  | _ => false

/-- The call is a set whose value is embedded in the pointer argument instead
of being passed through a pointer to it. -/
def Call.isDirectSet : Call → Bool
  | .SPBSetDeviceInfo _ _ d => !d.byReference
  | _ => false

/-- The handle a get, set or close is given (none for an open). -/
def Call.handle : Call → Option Int
  | .SPBOpenDevice _ _ => none
  | .SPBGetDeviceInfo h _ _ => some h
  | .SPBSetDeviceInfo h _ _ => some h
  | .SPBCloseDevice h => some h

/-- The event is a get or a set that returned a non-zero status. -/
def Event.failed : Event → Bool
  | .got _ _ _ _ err _ => decide (err ≠ 0)
  | .setTo _ _ _ err => decide (err ≠ 0)
  | _ => false

/-- State of a run: the backend, the log of backend calls, the strings written
to stdout (one per `PRINT`), and the locals of `TestSettingDeviceInfo`. -/
structure Frame (σ : Type) where
  dev : σ
  events : List Event
  out : List String
  err : Int
  mRefNum : Int
  tempL : Int
  tempS : Int
  tempF : Int

/-- Indeterminate initial contents of the locals the C function leaves
uninitialised (`OSErr err; long tempL; short tempS; Fixed tempF;`). -/
structure Uninit where
  err : Int
  tempL : Int
  tempS : Int
  tempF : Int

/-- Content of a local. -/
def Frame.read {σ : Type} (w : Frame σ) : Var → Int
  | .tempL => w.tempL
  | .tempS => w.tempS
  | .tempF => w.tempF

/-- Store into a local. -/
def Frame.write {σ : Type} (w : Frame σ) (var : Var) (v : Int) : Frame σ :=
  match var with
  | .tempL => { w with tempL := v }
  | .tempS => { w with tempS := v }
  | .tempF => { w with tempF := v }

/-- What the callee sees behind a pointer argument. -/
def Frame.infoData {σ : Type} (w : Frame σ) : Ptr → InfoData
  | .addr var => .ref var (w.read var)
  | .direct v => .direct v

/-! ## Formatting and integer conversions -/

/-- The digits `%x` prints for an `int`-sized argument: the value as an unsigned
32-bit number, lower-case hexadecimal, no leading zeros. -/
def fmtHex (v : Int) : String :=
  String.mk (Nat.toDigits 16 (v % 2 ^ 32).toNat)

/-- The digits `%d` prints. -/
def fmtDec (v : Int) : String :=
  toString v

/-- The expression `((unsigned long) x) << n` for a 32-bit `unsigned long`. -/
def shiftLeftUL (x n : Nat) : Nat :=
  (x * 2 ^ n) % 2 ^ 32

/-- Conversion of an `unsigned long` to the signed 32-bit `Fixed`. -/
def toFixed (u : Nat) : Int :=
  if u % 2 ^ 32 < 2 ^ 31 then ((u % 2 ^ 32 : Nat) : Int) else ((u % 2 ^ 32 : Nat) : Int) - 2 ^ 32

/-- The 32-bit word that holds a `Fixed`. -/
def fixedWord (f : Int) : Nat :=
  (f % 2 ^ 32).toNat

/-! ## Statements -/

/-- Statement `PRINT((s))`: write `s` to stdout (and flush). -/
def PRINT {σ : Type} (s : String) (w : Frame σ) : Frame σ :=
  { w with out := w.out ++ [s] }

/-- Statement `var = v;`. -/
def assign {σ : Type} (var : Var) (v : Int) (w : Frame σ) : Frame σ :=
  w.write var v

/-- Statement `err = SPBOpenDevice( deviceName, permission, &mRefNum);`. -/
def openDevice {σ : Type} (B : Backend σ) (deviceName : List Nat) (permission : Int)
    (w : Frame σ) : Frame σ :=
  let r := B.SPBOpenDevice w.dev deviceName permission w.mRefNum
  { w with
    dev := r.dev
    err := r.err
    mRefNum := r.refNum
    events := w.events ++ [Event.opened deviceName permission r.err r.refNum] }

/-- Statement `err = SPBGetDeviceInfo(mRefNum, selector, (Ptr) &var);`. -/
def getDeviceInfo {σ : Type} (B : Backend σ) (selector : Selector) (var : Var)
    (w : Frame σ) : Frame σ :=
  let r := B.SPBGetDeviceInfo w.dev w.mRefNum selector (w.read var)
  { w.write var r.value with
    dev := r.dev
    err := r.err
    events := w.events ++ [Event.got w.mRefNum selector var (w.read var) r.err r.value] }

/-- The macro of lines 88-95:
`err = SPBGetDeviceInfo(mRefNum, selector, (Ptr) &var);`
`if (err) PRINT(("query %s failed\n", #selector));`
`else PRINT(("query %s = 0x%x\n", #selector, var));` -/
def PrintDeviceInfo {σ : Type} (B : Backend σ) (selector : Selector) (var : Var)
    (w : Frame σ) : Frame σ :=
  let w1 := getDeviceInfo B selector var w
  if w1.err ≠ 0 then
    PRINT ("query " ++ selector.name ++ " failed\n") w1
  else
    PRINT ("query " ++ selector.name ++ " = 0x" ++ fmtHex (w1.read var) ++ "\n") w1

/-- Statement `err = SPBSetDeviceInfo(mRefNum, selector, infoData);`. -/
def setDeviceInfo {σ : Type} (B : Backend σ) (selector : Selector) (infoData : Ptr)
    (w : Frame σ) : Frame σ :=
  let r := B.SPBSetDeviceInfo w.dev w.mRefNum selector (w.infoData infoData)
  { w with
    dev := r.dev
    err := r.err
    events := w.events ++ [Event.setTo w.mRefNum selector (w.infoData infoData) r.err] }

/-- Statement `if (err) PRINT((s));`. -/
def ifErrPRINT {σ : Type} (s : String) (w : Frame σ) : Frame σ :=
  if w.err ≠ 0 then PRINT s w else w

/-- Statement `if( mRefNum )  SPBCloseDevice(mRefNum);` (the returned status is
dropped). -/
def closeDevice {σ : Type} (B : Backend σ) (w : Frame σ) : Frame σ :=
  if w.mRefNum ≠ 0 then
    { w with
      dev := (B.SPBCloseDevice w.dev w.mRefNum).dev
      events := w.events ++ [Event.closed w.mRefNum] }
  else w

/-- What a function returned and the state it left. -/
structure Run (σ : Type) where
  result : Int
  frame : Frame σ

/-- Lines 97-104: the eight queries. -/
def querySequence {σ : Type} (B : Backend σ) (w : Frame σ) : Frame σ :=
  w
  |> PrintDeviceInfo B .siContinuous .tempS
  |> PrintDeviceInfo B .siAsync .tempS
  |> PrintDeviceInfo B .siNumberChannels .tempS
  |> PrintDeviceInfo B .siSampleSize .tempS
  |> PrintDeviceInfo B .siSampleRate .tempF
  |> PrintDeviceInfo B .siChannelAvailable .tempS
  |> PrintDeviceInfo B .siActiveChannels .tempL
  |> PrintDeviceInfo B .siDeviceBufferInfo .tempL

/-- Lines 106-129: the two writes of `siContinuous`, under `#if USE_POINTER`. -/
def continuousMode {σ : Type} (B : Backend σ) (w : Frame σ) : Frame σ :=
  if USE_POINTER ≠ 0 then
    w
    |> PRINT "Attempt to set siContinuous to 1 using pointer method.\n"
    |> assign .tempS 1
    |> setDeviceInfo B .siContinuous (.addr .tempS)
    |> ifErrPRINT "setting siContinuous using pointer failed\n"
    |> PrintDeviceInfo B .siContinuous .tempS
    |> PRINT "Attempt to set siContinuous to 0 using pointer method.\n"
    |> assign .tempS 1
    |> setDeviceInfo B .siContinuous (.addr .tempS)
    |> ifErrPRINT "setting siContinuous using pointer failed\n"
    |> PrintDeviceInfo B .siContinuous .tempS
  else
    w
    |> PRINT "Attempt to set siContinuous to 1 using direct method.\n"
    |> setDeviceInfo B .siContinuous (.direct 1)
    |> ifErrPRINT "setting siContinuous using direct failed\n"
    |> PrintDeviceInfo B .siContinuous .tempS
    |> PRINT "Attempt to set siContinuous to 0 using direct method.\n"
    |> setDeviceInfo B .siContinuous (.direct 0)
    |> ifErrPRINT "setting siContinuous using direct failed\n"
    |> PrintDeviceInfo B .siContinuous .tempS

/-- Lines 131-156: the two writes of `siSampleRate`, under `#if USE_POINTER`. -/
def sampleRate {σ : Type} (B : Backend σ) (w : Frame σ) : Frame σ :=
  if USE_POINTER ≠ 0 then
    w
    |> PRINT "Attempt to set siSampleRate to 44100 using pointer method.\n"
    |> assign .tempF (toFixed (shiftLeftUL 44100 16))
    |> setDeviceInfo B .siSampleRate (.addr .tempF)
    |> ifErrPRINT "setting siSampleRate using pointer failed\n"
    |> assign .tempF 0
    |> PrintDeviceInfo B .siSampleRate .tempF
    |> PRINT "Attempt to set siSampleRate to 22050 using pointer method.\n"
    |> assign .tempF (toFixed (shiftLeftUL 22050 16))
    |> setDeviceInfo B .siSampleRate (.addr .tempF)
    |> ifErrPRINT "setting siSampleRate using pointer failed\n"
    |> assign .tempF 0
    |> PrintDeviceInfo B .siSampleRate .tempF
  else
    w
    |> PRINT "Attempt to set siSampleRate to 44100 using direct method.\n"
    |> setDeviceInfo B .siSampleRate (.direct (shiftLeftUL 44100 16 : Nat))
    |> ifErrPRINT "setting siSampleRate using direct failed\n"
    |> PrintDeviceInfo B .siSampleRate .tempF
    |> PRINT "Attempt to set siSampleRate to 22050 using direct method.\n"
    |> setDeviceInfo B .siSampleRate (.direct (shiftLeftUL 44100 16 : Nat))
    |> ifErrPRINT "setting siSampleRate using direct failed\n"
    |> PrintDeviceInfo B .siSampleRate .tempF

/-- The frame `TestSettingDeviceInfo` starts in: `long mRefNum = 0;`, the other
locals indeterminate, nothing printed and no call made yet. -/
def entryFrame {σ : Type} (dev : σ) (junk : Uninit) : Frame σ :=
  { dev := dev, events := [], out := [], err := junk.err, mRefNum := 0,
    tempL := junk.tempL, tempS := junk.tempS, tempF := junk.tempF }

/-- Function `static int TestSettingDeviceInfo( const unsigned char *deviceName )`,
lines 72-161.  `deviceName` is the Pascal string behind the pointer (length
byte first).  The `error:` label of lines 162-164 is the target of no `goto`
and is not reachable. -/
def TestSettingDeviceInfo {σ : Type} (B : Backend σ) (dev : σ) (deviceName : List Nat)
    (junk : Uninit) : Run σ :=
  let w := openDevice B deviceName siWritePermission (entryFrame dev junk)
  if w.err ≠ 0 then
    { result := -1, frame := PRINT "Cound not open device!\n" w }
  else
    { result := 0
      frame := w |> querySequence B |> continuousMode B |> sampleRate B |> closeDevice B }

/-- Function `int main( void )`, lines 59-66: `unsigned char noname = 0;`, one call of
`TestSettingDeviceInfo( &noname )`, the completion line, `return 0`. -/
def main {σ : Type} (B : Backend σ) (dev : σ) (junk : Uninit) : Run σ :=
  let noname : Nat := 0
  let r := TestSettingDeviceInfo B dev [noname] junk
  { result := 0
    frame := PRINT ("Test complete. result = " ++ fmtDec r.result ++ "\n") r.frame }

/-! ## Observations on a run -/

/-- The backend calls of a frame, in order, results left out. -/
def Frame.calls {σ : Type} (w : Frame σ) : List Call :=
  w.events.map Event.call

/-- A printed line reports a failed get or set: it ends in `failed`. -/
def isFailureLine (s : String) : Bool :=
  "failed\n".toList.isSuffixOf s.toList

/-- The line a get or set event accounts for in the output of the
pointer-method build: a failed get its `failed` line, a successful get the
value line, a failed set its `failed` line, anything else nothing. -/
def report : Event → List String
  | .got _ sel _ _ err after =>
    if err ≠ 0 then ["query " ++ sel.name ++ " failed\n"]
    else ["query " ++ sel.name ++ " = 0x" ++ fmtHex after ++ "\n"]
  | .setTo _ sel _ err =>
    if err ≠ 0 then ["setting " ++ sel.name ++ " using pointer failed\n"] else []
  | _ => []

/-- The four announcements printed before the writes (pointer-method build). -/
def attemptLines : List String :=
  [ "Attempt to set siContinuous to 1 using pointer method.\n",
    "Attempt to set siContinuous to 0 using pointer method.\n",
    "Attempt to set siSampleRate to 44100 using pointer method.\n",
    "Attempt to set siSampleRate to 22050 using pointer method.\n" ]

/-- The printed string is one of the four announcements. -/
def isAttemptLine (s : String) : Bool :=
  decide (s ∈ attemptLines)

/-- The output of a frame accounts for its calls: without the announcements it
is the concatenation of the reports of the calls made, and it has as many
failure lines as gets and sets that returned a non-zero status. -/
def Accounted {σ : Type} (w : Frame σ) : Prop :=
  w.out.filter (fun l => !isAttemptLine l) = w.events.flatMap report ∧
  w.out.countP isFailureLine = w.events.countP Event.failed

/-! ## Mock backends -/

/-- Configuration of the mock: the status `SPBOpenDevice` returns, the handle
it yields on success, and the status of get and set per selector. -/
structure MockCfg where
  openErr : Int
  handle : Int
  getErr : Selector → Int
  setErr : Selector → Int

/-- A store-and-return mock: a successful set stores the value under its
selector, a successful get returns what is stored; a failing call leaves the
caller's variable and the store untouched. -/
def mock (c : MockCfg) : Backend (Selector → Int) where
  SPBOpenDevice := fun s _ _ cur =>
    if c.openErr = 0 then { err := 0, refNum := c.handle, dev := s }
    else { err := c.openErr, refNum := cur, dev := s }
  SPBGetDeviceInfo := fun s _ sel cur =>
    if c.getErr sel = 0 then { err := 0, value := s sel, dev := s }
    else { err := c.getErr sel, value := cur, dev := s }
  SPBSetDeviceInfo := fun s _ sel d =>
    if c.setErr sel = 0 then { err := 0, dev := Function.update s sel d.value }
    else { err := c.setErr sel, dev := s }
  SPBCloseDevice := fun s _ => { err := 0, dev := s }

/-- Every call succeeds; the handle is 7. -/
def okCfg : MockCfg :=
  { openErr := 0, handle := 7, getErr := fun _ => 0, setErr := fun _ => 0 }

/-- The store every mock run starts from. -/
def emptyStore : Selector → Int := fun _ => 0

/-- Some initial contents for the uninitialised locals. -/
def junk0 : Uninit := { err := 0, tempL := 0, tempS := 0, tempF := 0 }

/-- Open succeeds but yields the handle 0. -/
def zeroHandleCfg : MockCfg :=
  { openErr := 0, handle := 0, getErr := fun _ => 0, setErr := fun _ => 0 }

/-- Open fails with `siBadSoundInDevice` (-221). -/
def openFailsCfg : MockCfg :=
  { openErr := -221, handle := 7, getErr := fun _ => 0, setErr := fun _ => 0 }

/-- Every get of `siContinuous` fails with `siUnknownInfoType` (-231); every
other call succeeds. -/
def continuousFailsCfg : MockCfg :=
  { openErr := 0, handle := 7,
    getErr := fun sel => if sel = Selector.siContinuous then -231 else 0,
    setErr := fun _ => 0 }

/-- Every set fails with `siUnknownInfoType` (-231); every other call
succeeds. -/
def setFailsCfg : MockCfg :=
  { openErr := 0, handle := 7, getErr := fun _ => 0, setErr := fun _ => -231 }

/-- The round-trip law of a correct store-and-return backend: after a set that
succeeded, a get of the same selector on the same handle succeeds and yields
the value that was set. -/
def RoundTrip {σ : Type} (B : Backend σ) : Prop :=
  ∀ (s : σ) (h : Int) (sel : Selector) (d : InfoData) (cur : Int),
    (B.SPBSetDeviceInfo s h sel d).err = 0 →
      (B.SPBGetDeviceInfo (B.SPBSetDeviceInfo s h sel d).dev h sel cur).err = 0 ∧
      (B.SPBGetDeviceInfo (B.SPBSetDeviceInfo s h sel d).dev h sel cur).value = d.value

/-! ## Step lemmas

Each statement changes the frame in a fixed way; the proofs below only use
these facts. -/

section Steps

variable {σ : Type} (B : Backend σ)

@[simp] theorem PRINT_out (s : String) (w : Frame σ) : (PRINT s w).out = w.out ++ [s] := rfl

@[simp] theorem PRINT_events (s : String) (w : Frame σ) : (PRINT s w).events = w.events := rfl

@[simp] theorem PRINT_mRefNum (s : String) (w : Frame σ) : (PRINT s w).mRefNum = w.mRefNum := rfl

@[simp] theorem PRINT_err (s : String) (w : Frame σ) : (PRINT s w).err = w.err := rfl

@[simp] theorem PRINT_dev (s : String) (w : Frame σ) : (PRINT s w).dev = w.dev := rfl

@[simp] theorem PRINT_read (s : String) (w : Frame σ) (x : Var) :
    (PRINT s w).read x = w.read x := by
  cases x <;> rfl

@[simp] theorem assign_out (x : Var) (v : Int) (w : Frame σ) : (assign x v w).out = w.out := by
  cases x <;> rfl

@[simp] theorem assign_events (x : Var) (v : Int) (w : Frame σ) :
    (assign x v w).events = w.events := by
  cases x <;> rfl

@[simp] theorem assign_mRefNum (x : Var) (v : Int) (w : Frame σ) :
    (assign x v w).mRefNum = w.mRefNum := by
  cases x <;> rfl

@[simp] theorem assign_err (x : Var) (v : Int) (w : Frame σ) : (assign x v w).err = w.err := by
  cases x <;> rfl

@[simp] theorem assign_dev (x : Var) (v : Int) (w : Frame σ) : (assign x v w).dev = w.dev := by
  cases x <;> rfl

@[simp] theorem assign_read_same (x : Var) (v : Int) (w : Frame σ) :
    (assign x v w).read x = v := by
  cases x <;> rfl

@[simp] theorem setDeviceInfo_out (sel : Selector) (p : Ptr) (w : Frame σ) :
    (setDeviceInfo B sel p w).out = w.out := rfl

@[simp] theorem setDeviceInfo_events (sel : Selector) (p : Ptr) (w : Frame σ) :
    (setDeviceInfo B sel p w).events =
      w.events ++ [Event.setTo w.mRefNum sel (w.infoData p)
        (B.SPBSetDeviceInfo w.dev w.mRefNum sel (w.infoData p)).err] := rfl

@[simp] theorem setDeviceInfo_mRefNum (sel : Selector) (p : Ptr) (w : Frame σ) :
    (setDeviceInfo B sel p w).mRefNum = w.mRefNum := rfl

@[simp] theorem setDeviceInfo_err (sel : Selector) (p : Ptr) (w : Frame σ) :
    (setDeviceInfo B sel p w).err =
      (B.SPBSetDeviceInfo w.dev w.mRefNum sel (w.infoData p)).err := rfl

@[simp] theorem setDeviceInfo_dev (sel : Selector) (p : Ptr) (w : Frame σ) :
    (setDeviceInfo B sel p w).dev =
      (B.SPBSetDeviceInfo w.dev w.mRefNum sel (w.infoData p)).dev := rfl

@[simp] theorem setDeviceInfo_read (sel : Selector) (p : Ptr) (w : Frame σ) (x : Var) :
    (setDeviceInfo B sel p w).read x = w.read x := by
  cases x <;> rfl

@[simp] theorem infoData_addr (w : Frame σ) (x : Var) :
    w.infoData (Ptr.addr x) = InfoData.ref x (w.read x) := rfl

@[simp] theorem infoData_direct (w : Frame σ) (v : Int) :
    w.infoData (Ptr.direct v) = InfoData.direct v := rfl

@[simp] theorem ifErrPRINT_out (s : String) (w : Frame σ) :
    (ifErrPRINT s w).out = w.out ++ (if w.err ≠ 0 then [s] else []) := by
  unfold ifErrPRINT
  split <;> simp

@[simp] theorem ifErrPRINT_events (s : String) (w : Frame σ) :
    (ifErrPRINT s w).events = w.events := by
  unfold ifErrPRINT
  split <;> simp

@[simp] theorem ifErrPRINT_mRefNum (s : String) (w : Frame σ) :
    (ifErrPRINT s w).mRefNum = w.mRefNum := by
  unfold ifErrPRINT
  split <;> simp

@[simp] theorem ifErrPRINT_dev (s : String) (w : Frame σ) : (ifErrPRINT s w).dev = w.dev := by
  unfold ifErrPRINT
  split <;> simp

@[simp] theorem ifErrPRINT_read (s : String) (w : Frame σ) (x : Var) :
    (ifErrPRINT s w).read x = w.read x := by
  unfold ifErrPRINT
  split <;> simp

@[simp] theorem getDeviceInfo_out (sel : Selector) (x : Var) (w : Frame σ) :
    (getDeviceInfo B sel x w).out = w.out := by
  cases x <;> rfl

@[simp] theorem getDeviceInfo_events (sel : Selector) (x : Var) (w : Frame σ) :
    (getDeviceInfo B sel x w).events =
      w.events ++ [Event.got w.mRefNum sel x (w.read x)
        (B.SPBGetDeviceInfo w.dev w.mRefNum sel (w.read x)).err
        (B.SPBGetDeviceInfo w.dev w.mRefNum sel (w.read x)).value] := by
  cases x <;> rfl

@[simp] theorem getDeviceInfo_mRefNum (sel : Selector) (x : Var) (w : Frame σ) :
    (getDeviceInfo B sel x w).mRefNum = w.mRefNum := by
  cases x <;> rfl

@[simp] theorem getDeviceInfo_err (sel : Selector) (x : Var) (w : Frame σ) :
    (getDeviceInfo B sel x w).err = (B.SPBGetDeviceInfo w.dev w.mRefNum sel (w.read x)).err := by
  cases x <;> rfl

@[simp] theorem getDeviceInfo_read_same (sel : Selector) (x : Var) (w : Frame σ) :
    (getDeviceInfo B sel x w).read x =
      (B.SPBGetDeviceInfo w.dev w.mRefNum sel (w.read x)).value := by
  cases x <;> rfl

/-- The line `PrintDeviceInfo` prints is the report of the get it made. -/
theorem PrintDeviceInfo_out (sel : Selector) (x : Var) (w : Frame σ) :
    (PrintDeviceInfo B sel x w).out =
      w.out ++ report (Event.got w.mRefNum sel x (w.read x)
        (B.SPBGetDeviceInfo w.dev w.mRefNum sel (w.read x)).err
        (B.SPBGetDeviceInfo w.dev w.mRefNum sel (w.read x)).value) := by
  unfold PrintDeviceInfo report
  simp only [getDeviceInfo_err, getDeviceInfo_read_same]
  split <;> simp

@[simp] theorem PrintDeviceInfo_events (sel : Selector) (x : Var) (w : Frame σ) :
    (PrintDeviceInfo B sel x w).events =
      w.events ++ [Event.got w.mRefNum sel x (w.read x)
        (B.SPBGetDeviceInfo w.dev w.mRefNum sel (w.read x)).err
        (B.SPBGetDeviceInfo w.dev w.mRefNum sel (w.read x)).value] := by
  unfold PrintDeviceInfo
  simp only [getDeviceInfo_err]
  split <;> simp

@[simp] theorem PrintDeviceInfo_mRefNum (sel : Selector) (x : Var) (w : Frame σ) :
    (PrintDeviceInfo B sel x w).mRefNum = w.mRefNum := by
  unfold PrintDeviceInfo
  simp only [getDeviceInfo_err]
  split <;> simp

@[simp] theorem closeDevice_out (w : Frame σ) : (closeDevice B w).out = w.out := by
  unfold closeDevice
  split <;> rfl

@[simp] theorem closeDevice_events (w : Frame σ) :
    (closeDevice B w).events =
      w.events ++ (if w.mRefNum ≠ 0 then [Event.closed w.mRefNum] else []) := by
  unfold closeDevice
  split <;> simp

@[simp] theorem openDevice_out (name : List Nat) (perm : Int) (w : Frame σ) :
    (openDevice B name perm w).out = w.out := rfl

@[simp] theorem openDevice_events (name : List Nat) (perm : Int) (w : Frame σ) :
    (openDevice B name perm w).events =
      w.events ++ [Event.opened name perm
        (B.SPBOpenDevice w.dev name perm w.mRefNum).err
        (B.SPBOpenDevice w.dev name perm w.mRefNum).refNum] := rfl

@[simp] theorem openDevice_mRefNum (name : List Nat) (perm : Int) (w : Frame σ) :
    (openDevice B name perm w).mRefNum = (B.SPBOpenDevice w.dev name perm w.mRefNum).refNum := rfl

@[simp] theorem openDevice_err (name : List Nat) (perm : Int) (w : Frame σ) :
    (openDevice B name perm w).err = (B.SPBOpenDevice w.dev name perm w.mRefNum).err := rfl

@[simp] theorem entryFrame_out (dev : σ) (junk : Uninit) : (entryFrame dev junk).out = [] := rfl

@[simp] theorem entryFrame_events (dev : σ) (junk : Uninit) :
    (entryFrame dev junk).events = [] := rfl

@[simp] theorem entryFrame_mRefNum (dev : σ) (junk : Uninit) :
    (entryFrame dev junk).mRefNum = 0 := rfl

@[simp] theorem entryFrame_dev (dev : σ) (junk : Uninit) : (entryFrame dev junk).dev = dev := rfl

end Steps

/-! ## The fixed call sequence -/

section Calls

variable {σ : Type} (B : Backend σ)

/-- The handle is not changed by the queries. -/
theorem querySequence_mRefNum (w : Frame σ) : (querySequence B w).mRefNum = w.mRefNum := by
  simp [querySequence]

/-- The handle is not changed by the writes of `siContinuous`. -/
theorem continuousMode_mRefNum (w : Frame σ) : (continuousMode B w).mRefNum = w.mRefNum := by
  simp [continuousMode, USE_POINTER]

/-- The handle is not changed by the writes of `siSampleRate`. -/
theorem sampleRate_mRefNum (w : Frame σ) : (sampleRate B w).mRefNum = w.mRefNum := by
  simp [sampleRate, USE_POINTER]

/-- The calls of the query sequence. -/
theorem querySequence_calls (w : Frame σ) :
    (querySequence B w).calls = w.calls ++
      [ Call.SPBGetDeviceInfo w.mRefNum .siContinuous (.addr .tempS),
        Call.SPBGetDeviceInfo w.mRefNum .siAsync (.addr .tempS),
        Call.SPBGetDeviceInfo w.mRefNum .siNumberChannels (.addr .tempS),
        Call.SPBGetDeviceInfo w.mRefNum .siSampleSize (.addr .tempS),
        Call.SPBGetDeviceInfo w.mRefNum .siSampleRate (.addr .tempF),
        Call.SPBGetDeviceInfo w.mRefNum .siChannelAvailable (.addr .tempS),
        Call.SPBGetDeviceInfo w.mRefNum .siActiveChannels (.addr .tempL),
        Call.SPBGetDeviceInfo w.mRefNum .siDeviceBufferInfo (.addr .tempL) ] := by
  simp [querySequence, Frame.calls, Event.call]

/-- The calls of the `siContinuous` writes. -/
theorem continuousMode_calls (w : Frame σ) :
    (continuousMode B w).calls = w.calls ++
      [ Call.SPBSetDeviceInfo w.mRefNum .siContinuous (.ref .tempS 1),
        Call.SPBGetDeviceInfo w.mRefNum .siContinuous (.addr .tempS),
        Call.SPBSetDeviceInfo w.mRefNum .siContinuous (.ref .tempS 1),
        Call.SPBGetDeviceInfo w.mRefNum .siContinuous (.addr .tempS) ] := by
  simp [continuousMode, USE_POINTER, Frame.calls, Event.call]

/-- The calls of the `siSampleRate` writes. -/
theorem sampleRate_calls (w : Frame σ) :
    (sampleRate B w).calls = w.calls ++
      [ Call.SPBSetDeviceInfo w.mRefNum .siSampleRate (.ref .tempF (-1404829696)),
        Call.SPBGetDeviceInfo w.mRefNum .siSampleRate (.addr .tempF),
        Call.SPBSetDeviceInfo w.mRefNum .siSampleRate (.ref .tempF 1445068800),
        Call.SPBGetDeviceInfo w.mRefNum .siSampleRate (.addr .tempF) ] := by
  have h1 : toFixed (shiftLeftUL 44100 16) = -1404829696 := by decide
  have h2 : toFixed (shiftLeftUL 22050 16) = 1445068800 := by decide
  simp [sampleRate, USE_POINTER, Frame.calls, Event.call, h1, h2]

/-- The run when open fails: the diagnostic, then `return -1`. -/
theorem run_open_failed (dev : σ) (name : List Nat) (junk : Uninit)
    (h : (B.SPBOpenDevice dev name siWritePermission 0).err ≠ 0) :
    TestSettingDeviceInfo B dev name junk =
      { result := -1
        frame := PRINT "Cound not open device!\n"
          (openDevice B name siWritePermission (entryFrame dev junk)) } := by
  simp [TestSettingDeviceInfo, h]

/-- The run when open succeeds: all steps, then `return 0`. -/
theorem run_open_ok (dev : σ) (name : List Nat) (junk : Uninit)
    (h : (B.SPBOpenDevice dev name siWritePermission 0).err = 0) :
    TestSettingDeviceInfo B dev name junk =
      { result := 0
        frame := closeDevice B (sampleRate B (continuousMode B (querySequence B
          (openDevice B name siWritePermission (entryFrame dev junk))))) } := by
  simp [TestSettingDeviceInfo, h]

/-- All calls of a run in which open succeeded and yielded the handle `h`. -/
theorem run_calls (dev : σ) (name : List Nat) (junk : Uninit)
    (h : (B.SPBOpenDevice dev name siWritePermission 0).err = 0) :
    (TestSettingDeviceInfo B dev name junk).frame.calls =
      [ Call.SPBOpenDevice name siWritePermission,
        Call.SPBGetDeviceInfo (B.SPBOpenDevice dev name siWritePermission 0).refNum
          .siContinuous (.addr .tempS),
        Call.SPBGetDeviceInfo (B.SPBOpenDevice dev name siWritePermission 0).refNum
          .siAsync (.addr .tempS),
        Call.SPBGetDeviceInfo (B.SPBOpenDevice dev name siWritePermission 0).refNum
          .siNumberChannels (.addr .tempS),
        Call.SPBGetDeviceInfo (B.SPBOpenDevice dev name siWritePermission 0).refNum
          .siSampleSize (.addr .tempS),
        Call.SPBGetDeviceInfo (B.SPBOpenDevice dev name siWritePermission 0).refNum
          .siSampleRate (.addr .tempF),
        Call.SPBGetDeviceInfo (B.SPBOpenDevice dev name siWritePermission 0).refNum
          .siChannelAvailable (.addr .tempS),
        Call.SPBGetDeviceInfo (B.SPBOpenDevice dev name siWritePermission 0).refNum
          .siActiveChannels (.addr .tempL),
        Call.SPBGetDeviceInfo (B.SPBOpenDevice dev name siWritePermission 0).refNum
          .siDeviceBufferInfo (.addr .tempL),
        Call.SPBSetDeviceInfo (B.SPBOpenDevice dev name siWritePermission 0).refNum
          .siContinuous (.ref .tempS 1),
        Call.SPBGetDeviceInfo (B.SPBOpenDevice dev name siWritePermission 0).refNum
          .siContinuous (.addr .tempS),
        Call.SPBSetDeviceInfo (B.SPBOpenDevice dev name siWritePermission 0).refNum
          .siContinuous (.ref .tempS 1),
        Call.SPBGetDeviceInfo (B.SPBOpenDevice dev name siWritePermission 0).refNum
          .siContinuous (.addr .tempS),
        Call.SPBSetDeviceInfo (B.SPBOpenDevice dev name siWritePermission 0).refNum
          .siSampleRate (.ref .tempF (-1404829696)),
        Call.SPBGetDeviceInfo (B.SPBOpenDevice dev name siWritePermission 0).refNum
          .siSampleRate (.addr .tempF),
        Call.SPBSetDeviceInfo (B.SPBOpenDevice dev name siWritePermission 0).refNum
          .siSampleRate (.ref .tempF 1445068800),
        Call.SPBGetDeviceInfo (B.SPBOpenDevice dev name siWritePermission 0).refNum
          .siSampleRate (.addr .tempF) ] ++
      (if (B.SPBOpenDevice dev name siWritePermission 0).refNum ≠ 0 then
        [Call.SPBCloseDevice (B.SPBOpenDevice dev name siWritePermission 0).refNum]
      else []) := by
  rw [run_open_ok B dev name junk h]
  have hc : ∀ w : Frame σ, (closeDevice B w).calls =
      w.calls ++ (if w.mRefNum ≠ 0 then [Call.SPBCloseDevice w.mRefNum] else []) := by
    intro w
    by_cases hw : w.mRefNum = 0 <;> simp [Frame.calls, hw, Event.call]
  have ho : (openDevice B name siWritePermission (entryFrame dev junk)).calls =
      [Call.SPBOpenDevice name siWritePermission] := by
    simp [Frame.calls, Event.call]
  simp only [hc, sampleRate_calls, continuousMode_calls, querySequence_calls, ho,
    sampleRate_mRefNum, continuousMode_mRefNum, querySequence_mRefNum, openDevice_mRefNum,
    entryFrame_mRefNum, entryFrame_dev, List.append_assoc, List.cons_append, List.nil_append]

end Calls

/-! ## Classification of the printed lines -/

section Lines

/-- No hexadecimal digit is the letter `l`. -/
theorem digitChar_ne_l (d : Nat) (hd : d < 16) : Nat.digitChar d ≠ 'l' := by
  interval_cases d <;> decide

/-- The digit loop only adds hexadecimal digits. -/
theorem toDigitsCore_ne_l (fuel : Nat) : ∀ (n : Nat) (ds : List Char),
    (∀ c ∈ ds, c ≠ 'l') → ∀ c ∈ Nat.toDigitsCore 16 fuel n ds, c ≠ 'l' := by
  induction fuel with
  | zero =>
    intro n ds hds c hc
    exact hds c (by simpa [Nat.toDigitsCore] using hc)
  | succ fuel ih =>
    intro n ds hds c hc
    have hcons : ∀ c ∈ Nat.digitChar (n % 16) :: ds, c ≠ 'l' := by
      intro c hc
      rcases List.mem_cons.1 hc with rfl | hc
      · exact digitChar_ne_l _ (Nat.mod_lt _ (by decide))
      · exact hds c hc
    unfold Nat.toDigitsCore at hc
    simp only at hc
    split at hc
    · exact hcons c hc
    · exact ih _ _ hcons c hc

/-- The text `%x` prints holds no `l`. -/
theorem toDigits_ne_l (n : Nat) : ∀ c ∈ Nat.toDigits 16 n, c ≠ 'l' :=
  toDigitsCore_ne_l _ _ _ (by simp)

/-- A line ending in ` = 0x`, hexadecimal digits and a newline does not end in
`failed` and a newline. -/
theorem not_failed_suffix (pre hex : List Char) (hhex : ∀ c ∈ hex, c ≠ 'l') :
    ¬ (['f', 'a', 'i', 'l', 'e', 'd', '\n'] <:+
      pre ++ [' ', '=', ' ', '0', 'x'] ++ hex ++ ['\n']) := by
  intro h
  have h2 := List.reverse_prefix.2 h
  simp only [List.reverse_append, List.reverse_cons, List.reverse_nil, List.nil_append,
    List.cons_append, List.append_assoc] at h2
  have hr : ∀ c ∈ hex.reverse, c ≠ 'l' := fun c hc => hhex c (List.mem_reverse.1 hc)
  generalize hex.reverse = r at h2 hr
  rcases r with _ | ⟨a, _ | ⟨b, _ | ⟨c, rest⟩⟩⟩
  · simp [List.cons_prefix_cons] at h2
  · simp [List.cons_prefix_cons] at h2
  · simp [List.cons_prefix_cons] at h2
  · simp only [List.cons_append, List.cons_prefix_cons] at h2
    exact hr c (by simp) h2.2.2.2.1.symm

/-- A value line is not a failure line. -/
theorem isFailureLine_queryValue (sel : Selector) (v : Int) :
    isFailureLine ("query " ++ sel.name ++ " = 0x" ++ fmtHex v ++ "\n") = false := by
  have h := not_failed_suffix ("query " ++ sel.name).toList
    (Nat.toDigits 16 (v % 2 ^ 32).toNat) (toDigits_ne_l _)
  rw [Bool.eq_false_iff]
  intro hs
  apply h
  unfold isFailureLine at hs
  rw [List.isSuffixOf_iff_suffix] at hs
  simpa [String.toList, String.data_append, fmtHex] using hs

/-- The line of a failed get is a failure line. -/
theorem isFailureLine_queryFailed (sel : Selector) :
    isFailureLine ("query " ++ sel.name ++ " failed\n") = true := by
  cases sel <;> decide

/-- The line of a failed set is a failure line. -/
theorem isFailureLine_settingFailed (sel : Selector) :
    isFailureLine ("setting " ++ sel.name ++ " using pointer failed\n") = true := by
  cases sel <;> decide

/-- An announcement is not a failure line. -/
theorem isFailureLine_attempt (s : String) (hs : s ∈ attemptLines) :
    isFailureLine s = false := by
  simp only [attemptLines, List.mem_cons, List.mem_singleton, List.not_mem_nil, or_false] at hs
  rcases hs with rfl | rfl | rfl | rfl <;> decide

/-- Every announcement starts with `A`. -/
theorem attemptLines_head (s : String) (hs : s ∈ attemptLines) : s.data.head? = some 'A' := by
  simp only [attemptLines, List.mem_cons, List.mem_singleton, List.not_mem_nil, or_false] at hs
  rcases hs with rfl | rfl | rfl | rfl <;> rfl

/-- A line starting with `query ` is no announcement. -/
theorem isAttemptLine_query (rest : String) : isAttemptLine ("query " ++ rest) = false := by
  rw [Bool.eq_false_iff]
  intro h
  have h2 := attemptLines_head _ (of_decide_eq_true h)
  simp [String.data_append] at h2

/-- A line starting with `setting ` is no announcement. -/
theorem isAttemptLine_setting (rest : String) : isAttemptLine ("setting " ++ rest) = false := by
  rw [Bool.eq_false_iff]
  intro h
  have h2 := attemptLines_head _ (of_decide_eq_true h)
  simp [String.data_append] at h2

/-- The report of an event holds one failure line if the event failed, none
otherwise. -/
theorem report_countP (e : Event) :
    (report e).countP isFailureLine = if e.failed then 1 else 0 := by
  cases e with
  | opened n p err h => simp [report, Event.failed]
  | got h sel x before err after =>
    by_cases he : err = 0
    · simp [report, Event.failed, he, List.countP_singleton, isFailureLine_queryValue]
    · simp [report, Event.failed, he, List.countP_singleton, isFailureLine_queryFailed]
  | setTo h sel d err =>
    by_cases he : err = 0
    · simp [report, Event.failed, he]
    · simp [report, Event.failed, he, List.countP_singleton, isFailureLine_settingFailed]
  | closed h => simp [report, Event.failed]

/-- No report is an announcement. -/
theorem report_filter (e : Event) :
    (report e).filter (fun l => !isAttemptLine l) = report e := by
  cases e with
  | opened n p err h => simp [report]
  | got h sel x before err after =>
    by_cases he : err = 0
    · simp [report, he, String.append_assoc, isAttemptLine_query]
    · simp [report, he, String.append_assoc, isAttemptLine_query]
  | setTo h sel d err =>
    by_cases he : err = 0
    · simp [report, he]
    · simp [report, he, String.append_assoc, isAttemptLine_setting]
  | closed h => simp [report]

end Lines

/-! ## The output accounts for the calls -/

section Accounting

variable {σ : Type} (B : Backend σ)

/-- Nothing is printed and no call made on entry. -/
theorem accounted_entry (dev : σ) (junk : Uninit) : Accounted (entryFrame dev junk) := by
  simp [Accounted]

/-- An open prints nothing and is no get or set. -/
theorem accounted_open (name : List Nat) (perm : Int) (w : Frame σ) (hw : Accounted w) :
    Accounted (openDevice B name perm w) := by
  obtain ⟨h1, h2⟩ := hw
  simp [Accounted, h1, h2, report, Event.failed]

/-- An assignment to a local prints nothing and calls nothing. -/
theorem accounted_assign (x : Var) (v : Int) (w : Frame σ) (hw : Accounted w) :
    Accounted (assign x v w) := by
  obtain ⟨h1, h2⟩ := hw
  simp [Accounted, h1, h2]

/-- An announcement is neither a report nor a failure line. -/
theorem accounted_attempt (s : String) (hs : s ∈ attemptLines) (w : Frame σ)
    (hw : Accounted w) : Accounted (PRINT s w) := by
  obtain ⟨h1, h2⟩ := hw
  have ha : isAttemptLine s = true := decide_eq_true hs
  simp [Accounted, h1, h2, ha, List.countP_singleton, isFailureLine_attempt s hs]

/-- The macro prints the report of its get. -/
theorem accounted_PrintDeviceInfo (sel : Selector) (x : Var) (w : Frame σ)
    (hw : Accounted w) : Accounted (PrintDeviceInfo B sel x w) := by
  obtain ⟨h1, h2⟩ := hw
  constructor
  · rw [PrintDeviceInfo_out, PrintDeviceInfo_events, List.filter_append, List.flatMap_append,
      h1, report_filter, List.flatMap_singleton]
  · rw [PrintDeviceInfo_out, PrintDeviceInfo_events, List.countP_append, List.countP_append,
      h2, report_countP, List.countP_singleton]

/-- A set followed by `if (err) PRINT` prints the report of the set. -/
theorem accounted_set (sel : Selector) (p : Ptr) (w : Frame σ) (hw : Accounted w) :
    Accounted (ifErrPRINT ("setting " ++ sel.name ++ " using pointer failed\n")
      (setDeviceInfo B sel p w)) := by
  obtain ⟨h1, h2⟩ := hw
  have hr : (if (B.SPBSetDeviceInfo w.dev w.mRefNum sel (w.infoData p)).err ≠ 0
      then ["setting " ++ sel.name ++ " using pointer failed\n"] else []) =
      report (Event.setTo w.mRefNum sel (w.infoData p)
        (B.SPBSetDeviceInfo w.dev w.mRefNum sel (w.infoData p)).err) := rfl
  constructor
  · rw [ifErrPRINT_out, ifErrPRINT_events, setDeviceInfo_out, setDeviceInfo_events,
      setDeviceInfo_err, hr, List.filter_append, List.flatMap_append, h1, report_filter,
      List.flatMap_singleton]
  · rw [ifErrPRINT_out, ifErrPRINT_events, setDeviceInfo_out, setDeviceInfo_events,
      setDeviceInfo_err, hr, List.countP_append, List.countP_append, h2, report_countP,
      List.countP_singleton]

/-- A close prints nothing and is no get or set. -/
theorem accounted_close (w : Frame σ) (hw : Accounted w) : Accounted (closeDevice B w) := by
  obtain ⟨h1, h2⟩ := hw
  by_cases hz : w.mRefNum = 0 <;> simp [Accounted, h1, h2, hz, report, Event.failed]

/-- The eight queries keep the output accounted. -/
theorem accounted_querySequence (w : Frame σ) (hw : Accounted w) :
    Accounted (querySequence B w) := by
  unfold querySequence
  repeat apply accounted_PrintDeviceInfo
  exact hw

/-- The writes of `siContinuous` keep the output accounted. -/
theorem accounted_continuousMode (w : Frame σ) (hw : Accounted w) :
    Accounted (continuousMode B w) := by
  have h := accounted_attempt "Attempt to set siContinuous to 1 using pointer method.\n"
    (by decide) w hw
  have h := accounted_set B .siContinuous (.addr .tempS) _ (accounted_assign .tempS 1 _ h)
  have h := accounted_PrintDeviceInfo B .siContinuous .tempS _ h
  have h := accounted_attempt "Attempt to set siContinuous to 0 using pointer method.\n"
    (by decide) _ h
  have h := accounted_set B .siContinuous (.addr .tempS) _ (accounted_assign .tempS 1 _ h)
  exact accounted_PrintDeviceInfo B .siContinuous .tempS _ h

/-- The writes of `siSampleRate` keep the output accounted. -/
theorem accounted_sampleRate (w : Frame σ) (hw : Accounted w) :
    Accounted (sampleRate B w) := by
  have h := accounted_attempt "Attempt to set siSampleRate to 44100 using pointer method.\n"
    (by decide) w hw
  have h := accounted_set B .siSampleRate (.addr .tempF) _
    (accounted_assign .tempF (toFixed (shiftLeftUL 44100 16)) _ h)
  have h := accounted_PrintDeviceInfo B .siSampleRate .tempF _ (accounted_assign .tempF 0 _ h)
  have h := accounted_attempt "Attempt to set siSampleRate to 22050 using pointer method.\n"
    (by decide) _ h
  have h := accounted_set B .siSampleRate (.addr .tempF) _
    (accounted_assign .tempF (toFixed (shiftLeftUL 22050 16)) _ h)
  exact accounted_PrintDeviceInfo B .siSampleRate .tempF _ (accounted_assign .tempF 0 _ h)

end Accounting

/-! ## Write and read back -/

section ReadBack

variable {σ : Type} (B : Backend σ)

/-- The all-succeeding mock obeys the round-trip law. -/
theorem roundTrip_mock_okCfg : RoundTrip (mock okCfg) := by
  intro s h sel d cur _
  simp [mock, okCfg]

/-- The two writes of `siSampleRate` against a backend that obeys the round-trip
law and accepts the writes: calls made and lines printed. -/
theorem sampleRate_roundTrip (hlaw : RoundTrip B)
    (hset : ∀ (s : σ) (r : Int) (d : InfoData),
      (B.SPBSetDeviceInfo s r .siSampleRate d).err = 0) (w : Frame σ) :
    (sampleRate B w).events = w.events ++
      [ Event.setTo w.mRefNum .siSampleRate (.ref .tempF (-1404829696)) 0,
        Event.got w.mRefNum .siSampleRate .tempF 0 0 (-1404829696),
        Event.setTo w.mRefNum .siSampleRate (.ref .tempF 1445068800) 0,
        Event.got w.mRefNum .siSampleRate .tempF 0 0 1445068800 ] ∧
    (sampleRate B w).out = w.out ++
      [ "Attempt to set siSampleRate to 44100 using pointer method.\n",
        "query siSampleRate = 0xac440000\n",
        "Attempt to set siSampleRate to 22050 using pointer method.\n",
        "query siSampleRate = 0x56220000\n" ] := by
  have h1 : toFixed (shiftLeftUL 44100 16) = -1404829696 := by decide
  have h2 : toFixed (shiftLeftUL 22050 16) = 1445068800 := by decide
  have ge : ∀ (s : σ) (r : Int) (d : InfoData) (cur : Int),
      (B.SPBGetDeviceInfo (B.SPBSetDeviceInfo s r .siSampleRate d).dev r
        .siSampleRate cur).err = 0 :=
    fun s r d cur => (hlaw s r .siSampleRate d cur (hset s r d)).1
  have gv : ∀ (s : σ) (r : Int) (d : InfoData) (cur : Int),
      (B.SPBGetDeviceInfo (B.SPBSetDeviceInfo s r .siSampleRate d).dev r
        .siSampleRate cur).value = d.value :=
    fun s r d cur => (hlaw s r .siSampleRate d cur (hset s r d)).2
  have l1 : "query " ++ Selector.siSampleRate.name ++ " = 0x" ++ fmtHex (-1404829696) ++ "\n" =
      "query siSampleRate = 0xac440000\n" := by decide
  have l2 : "query " ++ Selector.siSampleRate.name ++ " = 0x" ++ fmtHex 1445068800 ++ "\n" =
      "query siSampleRate = 0x56220000\n" := by decide
  constructor
  · simp [sampleRate, USE_POINTER, h1, h2, hset, ge, gv, InfoData.value]
  · simp [sampleRate, USE_POINTER, PrintDeviceInfo_out, report, h1, h2, hset, ge, gv,
      InfoData.value, l1, l2]

end ReadBack

/-! ## Claims -/

section Claims

variable {σ : Type}

/-- C1: when `SPBOpenDevice` returns a non-zero status, `TestSettingDeviceInfo`
returns -1 and the only backend call of the run is that one open: no get, no
set and no close is made. -/
theorem C1_open_failure (B : Backend σ) (dev : σ) (name : List Nat) (junk : Uninit)
    (h : (B.SPBOpenDevice dev name siWritePermission 0).err ≠ 0) :
    (TestSettingDeviceInfo B dev name junk).result = -1 ∧
    (TestSettingDeviceInfo B dev name junk).frame.calls =
      [Call.SPBOpenDevice name siWritePermission] ∧
    (TestSettingDeviceInfo B dev name junk).frame.calls.countP Call.isGet = 0 ∧
    (TestSettingDeviceInfo B dev name junk).frame.calls.countP Call.isSet = 0 ∧
    (TestSettingDeviceInfo B dev name junk).frame.calls.countP Call.isClose = 0 ∧
    (TestSettingDeviceInfo B dev name junk).frame.out = ["Cound not open device!\n"] := by
  rw [run_open_failed B dev name junk h]
  simp [Frame.calls, Event.call, Call.isGet, Call.isSet, Call.isClose]

/-- Witness of C1: the mock whose open fails with -221. -/
theorem C1_open_failure_witness :
    ((mock openFailsCfg).SPBOpenDevice emptyStore [0] siWritePermission 0).err ≠ 0 ∧
    (TestSettingDeviceInfo (mock openFailsCfg) emptyStore [0] junk0).result = -1 ∧
    (TestSettingDeviceInfo (mock openFailsCfg) emptyStore [0] junk0).frame.calls =
      [Call.SPBOpenDevice [0] siWritePermission] :=
  have h : ((mock openFailsCfg).SPBOpenDevice emptyStore [0] siWritePermission 0).err ≠ 0 := by
    decide
  ⟨h, (C1_open_failure (mock openFailsCfg) emptyStore [0] junk0 h).1,
    (C1_open_failure (mock openFailsCfg) emptyStore [0] junk0 h).2.1⟩

/-- C2 (amended): `SPBCloseDevice` is called exactly once when open returned
status zero and a non-zero handle, and then it is the last backend call of the
run, whatever the gets and sets returned; it is not called at all when open
returned status zero with the handle 0 (the guard `if( mRefNum )`), nor when
open failed. -/
theorem C2_close_once (B : Backend σ) (dev : σ) (name : List Nat) (junk : Uninit) :
    (TestSettingDeviceInfo B dev name junk).frame.calls.countP Call.isClose =
      (if (B.SPBOpenDevice dev name siWritePermission 0).err = 0 ∧
          (B.SPBOpenDevice dev name siWritePermission 0).refNum ≠ 0 then 1 else 0) ∧
    ((B.SPBOpenDevice dev name siWritePermission 0).err = 0 →
      (B.SPBOpenDevice dev name siWritePermission 0).refNum ≠ 0 →
      (TestSettingDeviceInfo B dev name junk).frame.calls.getLast? =
        some (Call.SPBCloseDevice (B.SPBOpenDevice dev name siWritePermission 0).refNum)) := by
  by_cases h : (B.SPBOpenDevice dev name siWritePermission 0).err = 0
  · rw [run_calls B dev name junk h]
    by_cases hh : (B.SPBOpenDevice dev name siWritePermission 0).refNum = 0
    · simp [h, hh, Call.isClose]
    · simp [h, hh, Call.isClose]
  · rw [run_open_failed B dev name junk h]
    simp [h, Frame.calls, Event.call, Call.isClose]

/-- Witness of C2 (amended): the all-succeeding mock, handle 7. -/
theorem C2_close_once_witness :
    (TestSettingDeviceInfo (mock okCfg) emptyStore [0] junk0).frame.calls.countP
      Call.isClose = 1 ∧
    (TestSettingDeviceInfo (mock okCfg) emptyStore [0] junk0).frame.calls.getLast? =
      some (Call.SPBCloseDevice 7) :=
  ⟨(C2_close_once (mock okCfg) emptyStore [0] junk0).1,
    (C2_close_once (mock okCfg) emptyStore [0] junk0).2 (by decide) (by decide)⟩

/-- Counterexample to C2 as stated: a backend whose open returns status zero
and the handle 0; the run makes all gets and sets and never calls close. -/
theorem C2_counterexample :
    ((mock zeroHandleCfg).SPBOpenDevice emptyStore [0] siWritePermission 0).err = 0 ∧
    (TestSettingDeviceInfo (mock zeroHandleCfg) emptyStore [0] junk0).result = 0 ∧
    (TestSettingDeviceInfo (mock zeroHandleCfg) emptyStore [0] junk0).frame.calls.countP
      Call.isClose = 0 := by
  decide

/-- C3: `TestSettingDeviceInfo` returns -1 exactly when `SPBOpenDevice` returned a
non-zero status, and 0 otherwise; the statuses of the gets and sets (any
backend `B`) have no influence on the returned value. -/
theorem C3_result (B : Backend σ) (dev : σ) (name : List Nat) (junk : Uninit) :
    ((TestSettingDeviceInfo B dev name junk).result = -1 ↔
      (B.SPBOpenDevice dev name siWritePermission 0).err ≠ 0) ∧
    ((TestSettingDeviceInfo B dev name junk).result < 0 ↔
      (B.SPBOpenDevice dev name siWritePermission 0).err ≠ 0) ∧
    ((TestSettingDeviceInfo B dev name junk).result = 0 ↔
      (B.SPBOpenDevice dev name siWritePermission 0).err = 0) := by
  by_cases h : (B.SPBOpenDevice dev name siWritePermission 0).err = 0
  · rw [run_open_ok B dev name junk h]
    simp [h]
  · rw [run_open_failed B dev name junk h]
    simp [h]

/-- C4 (amended): when open succeeds, the eight backend calls that follow the
open are gets of siContinuous, siAsync, siNumberChannels, siSampleSize,
siSampleRate, siChannelAvailable, siActiveChannels, siDeviceBufferInfo, one
each, in this order; over the whole run siContinuous and siSampleRate are got
three times each (the query and the two re-queries after the writes) and the
six other selectors once each. -/
theorem C4_query_order (B : Backend σ) (dev : σ) (name : List Nat) (junk : Uninit)
    (h : (B.SPBOpenDevice dev name siWritePermission 0).err = 0) :
    ((TestSettingDeviceInfo B dev name junk).frame.calls.drop 1).take 8 =
      [ Call.SPBGetDeviceInfo (B.SPBOpenDevice dev name siWritePermission 0).refNum
          .siContinuous (.addr .tempS),
        Call.SPBGetDeviceInfo (B.SPBOpenDevice dev name siWritePermission 0).refNum
          .siAsync (.addr .tempS),
        Call.SPBGetDeviceInfo (B.SPBOpenDevice dev name siWritePermission 0).refNum
          .siNumberChannels (.addr .tempS),
        Call.SPBGetDeviceInfo (B.SPBOpenDevice dev name siWritePermission 0).refNum
          .siSampleSize (.addr .tempS),
        Call.SPBGetDeviceInfo (B.SPBOpenDevice dev name siWritePermission 0).refNum
          .siSampleRate (.addr .tempF),
        Call.SPBGetDeviceInfo (B.SPBOpenDevice dev name siWritePermission 0).refNum
          .siChannelAvailable (.addr .tempS),
        Call.SPBGetDeviceInfo (B.SPBOpenDevice dev name siWritePermission 0).refNum
          .siActiveChannels (.addr .tempL),
        Call.SPBGetDeviceInfo (B.SPBOpenDevice dev name siWritePermission 0).refNum
          .siDeviceBufferInfo (.addr .tempL) ] ∧
    (TestSettingDeviceInfo B dev name junk).frame.calls.countP (Call.isGetOf .siContinuous) = 3 ∧
    (TestSettingDeviceInfo B dev name junk).frame.calls.countP (Call.isGetOf .siAsync) = 1 ∧
    (TestSettingDeviceInfo B dev name junk).frame.calls.countP
      (Call.isGetOf .siNumberChannels) = 1 ∧
    (TestSettingDeviceInfo B dev name junk).frame.calls.countP (Call.isGetOf .siSampleSize) = 1 ∧
    (TestSettingDeviceInfo B dev name junk).frame.calls.countP (Call.isGetOf .siSampleRate) = 3 ∧
    (TestSettingDeviceInfo B dev name junk).frame.calls.countP
      (Call.isGetOf .siChannelAvailable) = 1 ∧
    (TestSettingDeviceInfo B dev name junk).frame.calls.countP
      (Call.isGetOf .siActiveChannels) = 1 ∧
    (TestSettingDeviceInfo B dev name junk).frame.calls.countP
      (Call.isGetOf .siDeviceBufferInfo) = 1 := by
  rw [run_calls B dev name junk h]
  by_cases hh : (B.SPBOpenDevice dev name siWritePermission 0).refNum = 0 <;>
    simp [hh, Call.isGetOf]

/-- Witness of C4 (amended): the all-succeeding mock. -/
theorem C4_query_order_witness :
    ((TestSettingDeviceInfo (mock okCfg) emptyStore [0] junk0).frame.calls.drop 1).take 8 =
      [ Call.SPBGetDeviceInfo 7 .siContinuous (.addr .tempS),
        Call.SPBGetDeviceInfo 7 .siAsync (.addr .tempS),
        Call.SPBGetDeviceInfo 7 .siNumberChannels (.addr .tempS),
        Call.SPBGetDeviceInfo 7 .siSampleSize (.addr .tempS),
        Call.SPBGetDeviceInfo 7 .siSampleRate (.addr .tempF),
        Call.SPBGetDeviceInfo 7 .siChannelAvailable (.addr .tempS),
        Call.SPBGetDeviceInfo 7 .siActiveChannels (.addr .tempL),
        Call.SPBGetDeviceInfo 7 .siDeviceBufferInfo (.addr .tempL) ] :=
  (C4_query_order (mock okCfg) emptyStore [0] junk0 (by decide)).1

/-- Counterexample to C4 as stated: with the all-succeeding mock, open succeeds
and the run gets `siContinuous` three times and `siSampleRate` three times,
not once. -/
theorem C4_counterexample :
    ((mock okCfg).SPBOpenDevice emptyStore [0] siWritePermission 0).err = 0 ∧
    (TestSettingDeviceInfo (mock okCfg) emptyStore [0] junk0).frame.calls.countP
      (Call.isGetOf .siContinuous) = 3 ∧
    (TestSettingDeviceInfo (mock okCfg) emptyStore [0] junk0).frame.calls.countP
      (Call.isGetOf .siSampleRate) = 3 := by
  decide

/-- C9: when open succeeds with a non-zero handle `h`, the backend calls of the
run are one fixed list, whatever the gets and sets return: the open, the eight
queries in order, set/get/set/get of siContinuous, set/get/set/get of
siSampleRate, then close; every get, set and close is given `h`; every set
passes its value through a pointer to a local (`USE_POINTER` is 1); no call
is repeated or skipped after a failure. -/
theorem C9_fixed_calls (B : Backend σ) (dev : σ) (name : List Nat) (junk : Uninit) (h : Int)
    (hopen : (B.SPBOpenDevice dev name siWritePermission 0).err = 0)
    (hh : (B.SPBOpenDevice dev name siWritePermission 0).refNum = h) (hne : h ≠ 0) :
    (TestSettingDeviceInfo B dev name junk).frame.calls =
      [ Call.SPBOpenDevice name siWritePermission,
        Call.SPBGetDeviceInfo h .siContinuous (.addr .tempS),
        Call.SPBGetDeviceInfo h .siAsync (.addr .tempS),
        Call.SPBGetDeviceInfo h .siNumberChannels (.addr .tempS),
        Call.SPBGetDeviceInfo h .siSampleSize (.addr .tempS),
        Call.SPBGetDeviceInfo h .siSampleRate (.addr .tempF),
        Call.SPBGetDeviceInfo h .siChannelAvailable (.addr .tempS),
        Call.SPBGetDeviceInfo h .siActiveChannels (.addr .tempL),
        Call.SPBGetDeviceInfo h .siDeviceBufferInfo (.addr .tempL),
        Call.SPBSetDeviceInfo h .siContinuous (.ref .tempS 1),
        Call.SPBGetDeviceInfo h .siContinuous (.addr .tempS),
        Call.SPBSetDeviceInfo h .siContinuous (.ref .tempS 1),
        Call.SPBGetDeviceInfo h .siContinuous (.addr .tempS),
        Call.SPBSetDeviceInfo h .siSampleRate (.ref .tempF (-1404829696)),
        Call.SPBGetDeviceInfo h .siSampleRate (.addr .tempF),
        Call.SPBSetDeviceInfo h .siSampleRate (.ref .tempF 1445068800),
        Call.SPBGetDeviceInfo h .siSampleRate (.addr .tempF),
        Call.SPBCloseDevice h ] ∧
    ((TestSettingDeviceInfo B dev name junk).frame.calls.drop 1).all
      (fun c => decide (c.handle = some h)) = true ∧
    (TestSettingDeviceInfo B dev name junk).frame.calls.countP Call.isDirectSet = 0 ∧
    USE_POINTER = 1 := by
  rw [run_calls B dev name junk hopen, hh]
  simp [hne, Call.handle, Call.isDirectSet, InfoData.byReference, USE_POINTER]

/-- Witness of C9: the all-succeeding mock, whose open yields the handle 7. -/
theorem C9_fixed_calls_witness :
    (TestSettingDeviceInfo (mock okCfg) emptyStore [0] junk0).frame.calls.length = 18 ∧
    (TestSettingDeviceInfo (mock okCfg) emptyStore [0] junk0).frame.calls.getLast? =
      some (Call.SPBCloseDevice 7) := by
  have hc := (C9_fixed_calls (mock okCfg) emptyStore [0] junk0 7 (by decide) (by decide)
    (by decide)).1
  rw [hc]
  exact ⟨rfl, rfl⟩

/-- C8: `main` runs `TestSettingDeviceInfo` once, on the zero-length Pascal
string (the single length byte 0): its backend calls are those of that one run
and hold exactly one open, for the name `[0]`; after the run's output it prints
`Test complete. result = ` followed by the status the run returned, which is 0
or -1; and it returns 0 whatever that status is. -/
theorem C8_main (B : Backend σ) (dev : σ) (junk : Uninit) :
    (main B dev junk).result = 0 ∧
    (main B dev junk).frame.events = (TestSettingDeviceInfo B dev [0] junk).frame.events ∧
    (main B dev junk).frame.calls.countP Call.isOpen = 1 ∧
    (main B dev junk).frame.calls.head? = some (Call.SPBOpenDevice [0] siWritePermission) ∧
    (main B dev junk).frame.out =
      (TestSettingDeviceInfo B dev [0] junk).frame.out ++
        ["Test complete. result = " ++ fmtDec (TestSettingDeviceInfo B dev [0] junk).result
          ++ "\n"] ∧
    (((TestSettingDeviceInfo B dev [0] junk).result = 0 ∧
        (main B dev junk).frame.out.getLast? = some "Test complete. result = 0\n") ∨
      ((TestSettingDeviceInfo B dev [0] junk).result = -1 ∧
        (main B dev junk).frame.out.getLast? = some "Test complete. result = -1\n")) := by
  have hm : main B dev junk =
      { result := 0
        frame := PRINT ("Test complete. result = " ++
          fmtDec (TestSettingDeviceInfo B dev [0] junk).result ++ "\n")
          (TestSettingDeviceInfo B dev [0] junk).frame } := rfl
  have hd0 : "Test complete. result = " ++ fmtDec 0 ++ "\n" = "Test complete. result = 0\n" := by
    decide
  have hd1 : "Test complete. result = " ++ fmtDec (-1) ++ "\n" =
      "Test complete. result = -1\n" := by
    decide
  rw [hm]
  refine ⟨rfl, rfl, ?_, ?_, rfl, ?_⟩
  · by_cases h : (B.SPBOpenDevice dev [0] siWritePermission 0).err = 0
    · have hc := run_calls B dev [0] junk h
      simp only [Frame.calls, PRINT_events] at hc ⊢
      rw [hc]
      by_cases hh : (B.SPBOpenDevice dev [0] siWritePermission 0).refNum = 0 <;>
        simp [hh, Call.isOpen]
    · rw [run_open_failed B dev [0] junk h]
      simp [Frame.calls, Event.call, Call.isOpen]
  · by_cases h : (B.SPBOpenDevice dev [0] siWritePermission 0).err = 0
    · have hc := run_calls B dev [0] junk h
      simp only [Frame.calls, PRINT_events] at hc ⊢
      rw [hc]
      simp
    · rw [run_open_failed B dev [0] junk h]
      simp [Frame.calls, Event.call]
  · by_cases h : (B.SPBOpenDevice dev [0] siWritePermission 0).err = 0
    · left
      rw [run_open_ok B dev [0] junk h]
      simp [hd0]
    · right
      rw [run_open_failed B dev [0] junk h]
      simp [hd1]

/-- C10 (amended): when open succeeds, the output reports every get and set
one-for-one.  Leaving out the four announcements, the output is, in call
order, one line per get (`query <selector> failed` if it returned a non-zero
status, otherwise `query <selector> = 0x` and the value it returned in
hexadecimal) and one line per set that returned a non-zero status, which reads
`setting <selector> using pointer failed`; so the number of failure lines
equals the number of gets and sets that returned a non-zero status. -/
theorem C10_output_reports_calls (B : Backend σ) (dev : σ) (name : List Nat) (junk : Uninit)
    (hopen : (B.SPBOpenDevice dev name siWritePermission 0).err = 0) :
    (TestSettingDeviceInfo B dev name junk).frame.out.filter (fun l => !isAttemptLine l) =
      (TestSettingDeviceInfo B dev name junk).frame.events.flatMap report ∧
    (TestSettingDeviceInfo B dev name junk).frame.out.countP isFailureLine =
      (TestSettingDeviceInfo B dev name junk).frame.events.countP Event.failed := by
  rw [run_open_ok B dev name junk hopen]
  exact accounted_close B _ (accounted_sampleRate B _ (accounted_continuousMode B _
    (accounted_querySequence B _ (accounted_open B name siWritePermission _
      (accounted_entry dev junk)))))

/-- Witness of C10 (amended): the mock whose sets all fail; its output has four
failure lines, one per failed set. -/
theorem C10_output_reports_calls_witness :
    (TestSettingDeviceInfo (mock setFailsCfg) emptyStore [0] junk0).frame.events.countP
      Event.failed = 4 ∧
    (TestSettingDeviceInfo (mock setFailsCfg) emptyStore [0] junk0).frame.out.countP
      isFailureLine = 4 := by
  have h := (C10_output_reports_calls (mock setFailsCfg) emptyStore [0] junk0 (by decide)).2
  have h4 : (TestSettingDeviceInfo (mock setFailsCfg) emptyStore [0] junk0).frame.events.countP
      Event.failed = 4 := by decide
  exact ⟨h4, h.trans h4⟩

/-- Counterexample to C10 as stated: with the mock whose sets fail, the set of
`siContinuous` returns -231 and the line printed for it is
`setting siContinuous using pointer failed`; no line `setting siContinuous failed`
is printed. -/
theorem C10_counterexample :
    ((mock setFailsCfg).SPBOpenDevice emptyStore [0] siWritePermission 0).err = 0 ∧
    Event.setTo 7 .siContinuous (.ref .tempS 1) (-231) ∈
      (TestSettingDeviceInfo (mock setFailsCfg) emptyStore [0] junk0).frame.events ∧
    "setting siContinuous failed\n" ∉
      (TestSettingDeviceInfo (mock setFailsCfg) emptyStore [0] junk0).frame.out ∧
    "setting siContinuous failed" ∉
      (TestSettingDeviceInfo (mock setFailsCfg) emptyStore [0] junk0).frame.out ∧
    (TestSettingDeviceInfo (mock setFailsCfg) emptyStore [0] junk0).frame.out.count
      "setting siContinuous using pointer failed\n" = 2 := by
  decide

/-- C5 (amended): when open succeeds with a non-zero handle `h`, every get of
`siContinuous` fails and every other get and every set succeeds, the run
returns 0, its failure lines are exactly three, each
`query siContinuous failed` (one for the query and one for each of the two
re-queries after the writes), and close is called once, as the last call. -/
theorem C5_continuous_get_fails (B : Backend σ) (dev : σ) (name : List Nat) (junk : Uninit)
    (h : Int)
    (hopen : (B.SPBOpenDevice dev name siWritePermission 0).err = 0)
    (hh : (B.SPBOpenDevice dev name siWritePermission 0).refNum = h) (hne : h ≠ 0)
    (hcont : ∀ (s : σ) (r cur : Int), (B.SPBGetDeviceInfo s r .siContinuous cur).err ≠ 0)
    (hget : ∀ (s : σ) (r : Int) (sel : Selector) (cur : Int), sel ≠ .siContinuous →
      (B.SPBGetDeviceInfo s r sel cur).err = 0)
    (hset : ∀ (s : σ) (r : Int) (sel : Selector) (d : InfoData),
      (B.SPBSetDeviceInfo s r sel d).err = 0) :
    (TestSettingDeviceInfo B dev name junk).result = 0 ∧
    (TestSettingDeviceInfo B dev name junk).frame.out.filter isFailureLine =
      ["query siContinuous failed\n", "query siContinuous failed\n",
        "query siContinuous failed\n"] ∧
    (TestSettingDeviceInfo B dev name junk).frame.calls.countP Call.isClose = 1 ∧
    (TestSettingDeviceInfo B dev name junk).frame.calls.getLast? =
      some (Call.SPBCloseDevice h) := by
  have hcalls := run_calls B dev name junk hopen
  rw [hh] at hcalls
  refine ⟨?_, ?_, ?_, ?_⟩
  · rw [run_open_ok B dev name junk hopen]
  · rw [run_open_ok B dev name junk hopen]
    have hq : "query " ++ Selector.siContinuous.name ++ " failed\n" =
        "query siContinuous failed\n" := by decide
    have g1 := fun s r cur => hget s r .siAsync cur (by decide)
    have g2 := fun s r cur => hget s r .siNumberChannels cur (by decide)
    have g3 := fun s r cur => hget s r .siSampleSize cur (by decide)
    have g4 := fun s r cur => hget s r .siSampleRate cur (by decide)
    have g5 := fun s r cur => hget s r .siChannelAvailable cur (by decide)
    have g6 := fun s r cur => hget s r .siActiveChannels cur (by decide)
    have g7 := fun s r cur => hget s r .siDeviceBufferInfo cur (by decide)
    have a1 := isFailureLine_attempt
      "Attempt to set siContinuous to 1 using pointer method.\n" (by decide)
    have a2 := isFailureLine_attempt
      "Attempt to set siContinuous to 0 using pointer method.\n" (by decide)
    have a3 := isFailureLine_attempt
      "Attempt to set siSampleRate to 44100 using pointer method.\n" (by decide)
    have a4 := isFailureLine_attempt
      "Attempt to set siSampleRate to 22050 using pointer method.\n" (by decide)
    simp [sampleRate, continuousMode, querySequence, USE_POINTER, PrintDeviceInfo_out, report,
      hcont, g1, g2, g3, g4, g5, g6, g7, hset, isFailureLine_queryValue,
      isFailureLine_queryFailed, a1, a2, a3, a4, List.filter_cons]
    exact hq
  · rw [hcalls]
    simp [hne, Call.isClose]
  · rw [hcalls]
    simp [hne]

/-- Witness of C5 (amended): the mock whose gets of `siContinuous` fail with
-231 and whose other calls succeed, handle 7. -/
theorem C5_continuous_get_fails_witness :
    (TestSettingDeviceInfo (mock continuousFailsCfg) emptyStore [0] junk0).result = 0 ∧
    (TestSettingDeviceInfo (mock continuousFailsCfg) emptyStore [0] junk0).frame.out.filter
      isFailureLine =
      ["query siContinuous failed\n", "query siContinuous failed\n",
        "query siContinuous failed\n"] :=
  have w := C5_continuous_get_fails (mock continuousFailsCfg) emptyStore [0] junk0 7
    (by decide) (by decide) (by decide)
    (by intro s r cur; simp [mock, continuousFailsCfg])
    (by intro s r sel cur hsel; simp [mock, continuousFailsCfg, hsel])
    (by intro s r sel d; simp [mock, continuousFailsCfg])
  ⟨w.1, w.2.1⟩

/-- Counterexample to C5 as stated: with the mock whose gets of `siContinuous`
fail and whose other calls succeed (open yields the handle 7), the output holds
the line `query siContinuous failed` three times, not once. -/
theorem C5_counterexample :
    ((mock continuousFailsCfg).SPBOpenDevice emptyStore [0] siWritePermission 0).err = 0 ∧
    ((mock continuousFailsCfg).SPBOpenDevice emptyStore [0] siWritePermission 0).refNum = 7 ∧
    (∀ (s : Selector → Int) (r cur : Int),
      ((mock continuousFailsCfg).SPBGetDeviceInfo s r .siContinuous cur).err ≠ 0) ∧
    (∀ (s : Selector → Int) (r : Int) (sel : Selector) (cur : Int), sel ≠ .siContinuous →
      ((mock continuousFailsCfg).SPBGetDeviceInfo s r sel cur).err = 0) ∧
    (∀ (s : Selector → Int) (r : Int) (sel : Selector) (d : InfoData),
      ((mock continuousFailsCfg).SPBSetDeviceInfo s r sel d).err = 0) ∧
    (TestSettingDeviceInfo (mock continuousFailsCfg) emptyStore [0] junk0).frame.events.countP
      Event.failed = 3 ∧
    (TestSettingDeviceInfo (mock continuousFailsCfg) emptyStore [0] junk0).frame.out.count
      "query siContinuous failed\n" = 3 ∧
    (TestSettingDeviceInfo (mock continuousFailsCfg) emptyStore [0] junk0).frame.out.countP
      isFailureLine = 3 := by
  refine ⟨by decide, by decide, ?_, ?_, ?_, by decide, by decide, by decide⟩
  · intro s r cur
    simp [mock, continuousFailsCfg]
  · intro s r sel cur hsel
    simp [mock, continuousFailsCfg, hsel]
  · intro s r sel d
    simp [mock, continuousFailsCfg]

/-- C6: against a backend that obeys the round-trip law (a get that follows a
successful set of the same selector returns the value set) and accepts the
writes of `siSampleRate`, the get after the write of 44100 reads back the
word the program wrote, `44100 * 2 ^ 16 mod 2 ^ 32 = 0xAC440000` (upper half
44100, lower half 0), and the line printed is `query siSampleRate = 0xac440000`;
the second write reads back 22050 (`0x56220000`).  The local `tempF` holds 0
when each get is issued (`before` is 0), so the value printed is the one the
backend returned. -/
theorem C6_sample_rate_read_back (B : Backend σ) (dev : σ) (name : List Nat) (junk : Uninit)
    (h : Int)
    (hopen : (B.SPBOpenDevice dev name siWritePermission 0).err = 0)
    (hh : (B.SPBOpenDevice dev name siWritePermission 0).refNum = h)
    (hlaw : RoundTrip B)
    (hset : ∀ (s : σ) (r : Int) (d : InfoData),
      (B.SPBSetDeviceInfo s r .siSampleRate d).err = 0) :
    (∃ pre : List Event, (TestSettingDeviceInfo B dev name junk).frame.events = pre ++
      [ Event.setTo h .siSampleRate (.ref .tempF (-1404829696)) 0,
        Event.got h .siSampleRate .tempF 0 0 (-1404829696),
        Event.setTo h .siSampleRate (.ref .tempF 1445068800) 0,
        Event.got h .siSampleRate .tempF 0 0 1445068800 ] ++
      (if h ≠ 0 then [Event.closed h] else [])) ∧
    [ "Attempt to set siSampleRate to 44100 using pointer method.\n",
      "query siSampleRate = 0xac440000\n",
      "Attempt to set siSampleRate to 22050 using pointer method.\n",
      "query siSampleRate = 0x56220000\n" ] <:+
      (TestSettingDeviceInfo B dev name junk).frame.out ∧
    toFixed (shiftLeftUL 44100 16) = -1404829696 ∧
    fixedWord (-1404829696) = 44100 * 2 ^ 16 % 2 ^ 32 ∧
    fixedWord (-1404829696) = 0xAC440000 ∧
    fixedWord (-1404829696) / 2 ^ 16 = 44100 ∧
    fixedWord (-1404829696) % 2 ^ 16 = 0 ∧
    toFixed (shiftLeftUL 22050 16) = 1445068800 ∧
    fixedWord 1445068800 = 0x56220000 ∧
    fixedWord 1445068800 / 2 ^ 16 = 22050 ∧
    fixedWord 1445068800 % 2 ^ 16 = 0 := by
  refine ⟨?_, ?_, by decide, by decide, by decide, by decide, by decide, by decide, by decide,
    by decide, by decide⟩
  · rw [run_open_ok B dev name junk hopen]
    refine ⟨(continuousMode B (querySequence B
      (openDevice B name siWritePermission (entryFrame dev junk)))).events, ?_⟩
    rw [closeDevice_events, (sampleRate_roundTrip B hlaw hset _).1, sampleRate_mRefNum,
      continuousMode_mRefNum, querySequence_mRefNum, openDevice_mRefNum, entryFrame_mRefNum,
      entryFrame_dev, hh]
  · rw [run_open_ok B dev name junk hopen, closeDevice_out,
      (sampleRate_roundTrip B hlaw hset _).2]
    exact List.suffix_append _ _

/-- Witness of C6: the all-succeeding store-and-return mock. -/
theorem C6_sample_rate_read_back_witness :
    RoundTrip (mock okCfg) ∧
    [ "Attempt to set siSampleRate to 44100 using pointer method.\n",
      "query siSampleRate = 0xac440000\n",
      "Attempt to set siSampleRate to 22050 using pointer method.\n",
      "query siSampleRate = 0x56220000\n" ] <:+
      (TestSettingDeviceInfo (mock okCfg) emptyStore [0] junk0).frame.out :=
  ⟨roundTrip_mock_okCfg,
    (C6_sample_rate_read_back (mock okCfg) emptyStore [0] junk0 7 (by decide) (by decide)
      roundTrip_mock_okCfg (by intro s r d; simp [mock, okCfg])).2.1⟩

/-- C7 (the code at the failing input): with the all-succeeding store-and-return
mock, the two sets of `siContinuous` both carry the value 1, although the
announcement printed before the second one says 0; both re-queries read back 1.
The two sets of `siSampleRate` carry different values. -/
theorem C7_second_write_repeats_value :
    (TestSettingDeviceInfo (mock okCfg) emptyStore [0] junk0).frame.calls.filter
      (Call.isSetOf .siContinuous) =
      [ Call.SPBSetDeviceInfo 7 .siContinuous (.ref .tempS 1),
        Call.SPBSetDeviceInfo 7 .siContinuous (.ref .tempS 1) ] ∧
    ((TestSettingDeviceInfo (mock okCfg) emptyStore [0] junk0).frame.events.drop 9).take 4 =
      [ Event.setTo 7 .siContinuous (.ref .tempS 1) 0,
        Event.got 7 .siContinuous .tempS 1 0 1,
        Event.setTo 7 .siContinuous (.ref .tempS 1) 0,
        Event.got 7 .siContinuous .tempS 1 0 1 ] ∧
    ((TestSettingDeviceInfo (mock okCfg) emptyStore [0] junk0).frame.out.drop 8).take 4 =
      [ "Attempt to set siContinuous to 1 using pointer method.\n",
        "query siContinuous = 0x1\n",
        "Attempt to set siContinuous to 0 using pointer method.\n",
        "query siContinuous = 0x1\n" ] ∧
    (TestSettingDeviceInfo (mock okCfg) emptyStore [0] junk0).frame.calls.filter
      (Call.isSetOf .siSampleRate) =
      [ Call.SPBSetDeviceInfo 7 .siSampleRate (.ref .tempF (-1404829696)),
        Call.SPBSetDeviceInfo 7 .siSampleRate (.ref .tempF 1445068800) ] := by
  decide

end Claims

end PatestDevinfo
